import Mathlib

/-!
Shallow embedding of `src/zone_logger.py` (iFit treadmill console + Polar HR
strap BLE session core).  Byte buffers are `List Nat` with each byte `< 256`
where a bound matters; Python `bytes`/`bytearray` slicing clamps to the list
(it never raises), and `int.from_bytes(_, 'little')` of the empty bytes is 0.
Telemetry floats (`speed`, `incline`, `distance`) are modelled as exact
rationals, since the code only ever divides a decoded integer by 100 or 1000.
Transport effects (BleakClient connect / notify / read outcomes) are passed in
explicitly as outcome values.
-/

/-- `int.from_bytes(bs, byteorder='little')`: little-endian value of a byte list. -/
def leVal : List Nat → Nat
  | [] => 0
  | b :: bs => b + 256 * leVal bs

/-- Python slice `data[a:b]` (for `0 ≤ a ≤ b`): drop `a`, take `b - a`; clamps, never raises. -/
def pySlice (data : List Nat) (a b : Nat) : List Nat :=
  (data.drop a).take (b - a)

/-- `int.from_bytes(data[a:b], byteorder='little')`. -/
def sliceLE (data : List Nat) (a b : Nat) : Nat :=
  leVal (pySlice data a b)

/-- The byte of `data` at index `i` (0 when out of range; used only under
a length hypothesis making it the actual byte). -/
def byteAt (data : List Nat) (i : Nat) : Nat :=
  data.getD i 0

/-- The fixed 4-byte console frame signature `bytes.fromhex("2e042e02")`. -/
def signature : List Nat := [0x2e, 0x04, 0x2e, 0x02]

/-- Python `data.find(pat)` for a contiguous byte pattern: index of the first
occurrence, `none` when absent (Python returns `-1`). -/
def findSub (pat : List Nat) : List Nat → Option Nat
  | [] => if pat.isPrefixOf ([] : List Nat) then some 0 else none
  | d :: rest =>
      if pat.isPrefixOf (d :: rest) then some 0
      else (findSub pat rest).map (· + 1)

/-- State of an `IFitDevice` instance (console session).
`hasClient` models `self.client is not None`; `connected` is
`self.connected`; the three telemetry fields are the decoded floats. -/
structure ConsoleSession where
  hasClient : Bool
  connected : Bool
  speed : ℚ
  incline : ℚ
  distance : ℚ
  deriving Repr, DecidableEq

/-- `IFitDevice.__init__`: zero telemetry, no client, disconnected. -/
def initConsole : ConsoleSession :=
  { hasClient := false, connected := false, speed := 0, incline := 0, distance := 0 }

/-- `IFitDevice._notification_handler`: find the signature; if present at
`idx`, decode the telemetry block starting at `idx + 5`.  The Python
`except (IndexError, ValueError)` is dead code: slicing clamps and
`int.from_bytes` on a (possibly empty) bytes slice never raises, so the
decode is modelled without an exception path. -/
def notification_handler (s : ConsoleSession) (data : List Nat) : ConsoleSession :=
  match findSub signature data with
  | none => s
  | some idx =>
      let start := idx + 5
      let speed_raw := sliceLE data start (start + 2)
      let incline_raw := sliceLE data (start + 2) (start + 4)
      let distance_raw := sliceLE data (start + 6) (start + 8)
      { s with
          speed := (speed_raw : ℚ) / 100
          incline := (incline_raw : ℚ) / 100
          distance := (distance_raw : ℚ) / 1000 }

/-- Outcome of a transport (`BleakClient`) connect attempt:
either the awaited `connect()` raises, or it returns and the subsequent
`is_connected` report is the given Bool. -/
inductive ConnectOutcome where
  | raises
  | ok (isConnected : Bool)
  deriving Repr, DecidableEq

/-- `IFitDevice.connect`: assigns `self.client`, then awaits the transport
connect with NO try/except — an exception propagates to the caller.  Returns
the state after the call together with `true` iff it raised. -/
def IFitDevice.connect (s : ConsoleSession) (out : ConnectOutcome) :
    ConsoleSession × Bool :=
  let s := { s with hasClient := true }
  match out with
  | .raises => (s, true)
  | .ok b => ({ s with connected := b }, false)

/-- `IFitDevice.close`: if `self.client and self.connected`, try
`stop_notify` (errors swallowed) then `await self.client.disconnect()`
OUTSIDE the try.  Returns `true` iff `close` raises to its caller, which
happens exactly when the guard holds and the disconnect raises. -/
def IFitDevice.close (s : ConsoleSession)
    (_stopNotifyRaises disconnectRaises : Bool) : Bool :=
  if s.hasClient && s.connected then
    -- stopNotifyRaises is swallowed by `except Exception: pass`
    disconnectRaises
  else
    false

/-- Fold of the console notification handler over a sequence of
delivered notification buffers (the only code path mutating telemetry). -/
def run_frames (s : ConsoleSession) : List (List Nat) → ConsoleSession
  | [] => s
  | d :: ds => run_frames (notification_handler s d) ds

/-- The golden frame with the one-byte gap the code skips
(`start = idx + 5` while the signature ends at `idx + 4`). -/
def dataGolden : List Nat :=
  signature ++ [0x00, 0x64, 0x00, 0x0A, 0x00, 0x00, 0x00, 0xE8, 0x03]

/-- The spec's golden frame: signature immediately followed by the
telemetry bytes, with no gap byte. -/
def dataNoPad : List Nat :=
  signature ++ [0x64, 0x00, 0x0A, 0x00, 0x00, 0x00, 0xE8, 0x03]

/-- State of a `PolarDevice` instance (HR strap session).  Times are
abstract natural "time units" (the code uses `time.time()` seconds). -/
structure PolarState where
  hasClient : Bool
  connected : Bool
  hr : Nat
  battery : Nat
  last_battery_read : Nat
  connection_start : Nat
  deriving Repr, DecidableEq

/-- `PolarDevice.__init__`. -/
def initPolar : PolarState :=
  { hasClient := false, connected := false, hr := 0, battery := 0,
    last_battery_read := 0, connection_start := 0 }

/-- `PolarDevice.connect`: no-op without an address; otherwise constructs the
client, awaits the transport connect inside try/except (on exception
`connected` is forced `false`), and on return samples `is_connected`,
recording `connection_start` when up. -/
def PolarDevice.connect (hasAddress : Bool) (s : PolarState)
    (out : ConnectOutcome) (now : Nat) : PolarState :=
  if hasAddress then
    match out with
    | .raises => { s with hasClient := true, connected := false }
    | .ok b =>
        if b then
          { s with hasClient := true, connected := true, connection_start := now }
        else
          { s with hasClient := true, connected := false }
  else s

/-- `PolarDevice.setup`: no-op if disconnected; subscribe to the HR
characteristic, forcing `connected := false` on subscription failure. -/
def PolarDevice.setup (s : PolarState) (subscribeOk : Bool) : PolarState :=
  if s.connected then
    if subscribeOk then s else { s with connected := false }
  else s

/-- `PolarDevice._hr_handler`: empty buffer ignored; `flags = data[0]`,
`hr_fmt = flags & 1`; if 0, `hr = data[1]` (an `IndexError` on a 1-byte
buffer is caught, leaving `hr` unchanged); if 1,
`hr = int.from_bytes(data[1:3], 'little')` (the slice clamps, so it never
raises). -/
def PolarDevice.hr_handler (s : PolarState) (data : List Nat) : PolarState :=
  match data with
  | [] => s
  | flags :: rest =>
      if flags % 2 = 0 then
        match rest with
        | [] => s
        | b :: _ => { s with hr := b }
      else
        { s with hr := leVal (rest.take 2) }

/-- Per-tick transport environment for `PolarDevice.update`:
the tick's clock reading, the client's live `is_connected` report used at
reconcile, and the outcomes of the connect / subscribe / battery-read
operations the tick may perform (`battery_outcome = none` means the read
raised). -/
structure TickInput where
  now : Nat
  client_is_connected : Bool
  connect_outcome : ConnectOutcome
  setup_ok : Bool
  battery_outcome : Option Nat
  deriving Repr, DecidableEq

/-- Reconcile step at the top of `PolarDevice.update`:
`if self.client: self.connected = self.client.is_connected`. -/
def PolarDevice.reconcile (s : PolarState) (live : Bool) : PolarState :=
  if s.hasClient then { s with connected := live } else s

/-- `PolarDevice.update`: reconcile; if disconnected, attempt connect and
(on success) setup, then return; if connected and strictly more than 60
time units have passed since the last successful battery read, attempt a
battery read (`_read_battery` sets `battery` and `last_battery_read`;
an exception there is logged and swallowed, leaving both unchanged). -/
def PolarDevice.update (hasAddress : Bool) (s : PolarState) (t : TickInput) :
    PolarState :=
  let s := PolarDevice.reconcile s t.client_is_connected
  if s.connected then
    if s.last_battery_read + 60 < t.now then
      match t.battery_outcome with
      | some v => { s with battery := v, last_battery_read := t.now }
      | none => s
    else s
  else
    let s := PolarDevice.connect hasAddress s t.connect_outcome t.now
    if s.connected then PolarDevice.setup s t.setup_ok else s

/-- Whether the tick's control flow reaches `self._read_battery()`:
after reconcile, the session is connected and `time.time() -
self._last_battery_read > 60`. -/
def PolarDevice.battery_attempted (s : PolarState) (t : TickInput) : Bool :=
  let s := PolarDevice.reconcile s t.client_is_connected
  s.connected && decide (s.last_battery_read + 60 < t.now)

/-- Fold of `PolarDevice.update` over a sequence of ticks. -/
def PolarDevice.run_ticks (hasAddress : Bool) (s : PolarState) :
    List TickInput → PolarState
  | [] => s
  | t :: ts =>
      PolarDevice.run_ticks hasAddress (PolarDevice.update hasAddress s t) ts

/-- The clock times of the successful battery reads performed along a
sequence of ticks, in order. -/
def PolarDevice.read_times (hasAddress : Bool) (s : PolarState) :
    List TickInput → List Nat
  | [] => []
  | t :: ts =>
      (if PolarDevice.battery_attempted s t && t.battery_outcome.isSome
        then [t.now] else []) ++
      PolarDevice.read_times hasAddress (PolarDevice.update hasAddress s t) ts

/-- What `PolarDevice.close` did: which of the two transport calls were
reached, and whether the method raised to its caller. -/
structure CloseResult where
  stop_notify_attempted : Bool
  disconnect_attempted : Bool
  raised : Bool
  deriving Repr, DecidableEq

/-- `PolarDevice.close`: if `self.client and self.connected`, run
`stop_notify` THEN `disconnect` inside one `try ... except Exception: pass`:
neither error reaches the caller, but a raise from `stop_notify` skips the
`disconnect` call.  (`disconnectRaises` is swallowed by the same handler
and affects nothing observable here.) -/
def PolarDevice.close (s : PolarState)
    (stopNotifyRaises _disconnectRaises : Bool) : CloseResult :=
  if s.hasClient && s.connected then
    if stopNotifyRaises then
      { stop_notify_attempted := true, disconnect_attempted := false,
        raised := false }
    else
      { stop_notify_attempted := true, disconnect_attempted := true,
        raised := false }
  else
    { stop_notify_attempted := false, disconnect_attempted := false,
      raised := false }

/-- The `finally` block of `main`: `if ifit: await ifit.close()` then
`if polar: await polar.close()`.  `IFitDevice.close` can raise (its
`disconnect` is outside the try), in which case the exception propagates
out of the `finally` block and `polar.close()` is never reached;
`PolarDevice.close` never raises.  Returns (console close invoked,
strap close invoked). -/
def main_cleanup (ifitSession : Option ConsoleSession)
    (polarSession : Option PolarState)
    (ifitStopRaises ifitDiscRaises : Bool) : Bool × Bool :=
  match ifitSession with
  | none => (false, polarSession.isSome)
  | some s =>
      if IFitDevice.close s ifitStopRaises ifitDiscRaises then
        (true, false)
      else
        (true, polarSession.isSome)

/-- A console session holding a live client, with prior telemetry. -/
def connectedConsole : ConsoleSession :=
  { initConsole with hasClient := true, connected := true }

/-- A console session with nonzero prior telemetry. -/
def priorConsole : ConsoleSession :=
  { initConsole with speed := 1, incline := 2, distance := 3 }

/-- A strap session holding a live, connected client. -/
def connectedPolar : PolarState :=
  { initPolar with hasClient := true, connected := true }

/-- A tick environment exercising the reconnect path:
disconnected at reconcile, transport connect and subscribe both succeed. -/
def tickReconnect : TickInput :=
  { now := 5, client_is_connected := false,
    connect_outcome := ConnectOutcome.ok true, setup_ok := true,
    battery_outcome := none }

/-- A tick environment exercising a successful battery read at time 100. -/
def tickRead : TickInput :=
  { now := 100, client_is_connected := true,
    connect_outcome := ConnectOutcome.ok true, setup_ok := true,
    battery_outcome := some 77 }

/-- The telemetry value bounds stated by the spec: speed and incline in
[0, 655.35], distance in [0, 65.535]. -/
def telemetry_bounded (s : ConsoleSession) : Prop :=
  (0 ≤ s.speed ∧ s.speed ≤ 65535 / 100) ∧
  (0 ≤ s.incline ∧ s.incline ≤ 65535 / 100) ∧
  (0 ≤ s.distance ∧ s.distance ≤ 65535 / 1000)

/-! ## Helper lemmas -/

theorem leVal_pair (b c : Nat) : leVal [b, c] = b + 256 * c := by
  simp [leVal]

theorem take_two_cons (b c : Nat) (rest : List Nat) :
    (b :: c :: rest).take 2 = [b, c] := rfl

theorem drop_take_two (data : List Nat) (a : Nat) (h : a + 2 ≤ data.length) :
    (data.drop a).take 2 = [byteAt data a, byteAt data (a + 1)] := by
  induction data generalizing a with
  | nil => simp only [List.length_nil] at h; omega
  | cons d ds ih =>
      cases a with
      | zero =>
          cases ds with
          | nil => simp only [List.length_cons, List.length_nil] at h; omega
          | cons e es => simp [byteAt]
      | succ a2 =>
          have h2 : a2 + 2 ≤ ds.length := by
            simp only [List.length_cons] at h; omega
          simpa [byteAt] using ih a2 h2

theorem sliceLE_two_bytes (data : List Nat) (a b i j : Nat)
    (hb : b = a + 2) (hi : i = a) (hj : j = a + 1) (h : a + 2 ≤ data.length) :
    sliceLE data a b = byteAt data i + 256 * byteAt data j := by
  subst hb; subst hi; subst hj
  simp [sliceLE, pySlice, Nat.add_sub_cancel_left, drop_take_two data _ h, leVal]

/-! ## C1: console frame decode offsets and divisors -/

/-- C1: for every notification buffer in which the search finds the 4-byte
signature at offset `idx` (and long enough that the three 2-byte fields
exist), the handler sets speed to the little-endian 16-bit integer at
bytes [idx+5, idx+7) divided by 100, incline to the one at [idx+7, idx+9)
divided by 100, and distance to the one at [idx+11, idx+13) divided by
1000 — the telemetry block starts at idx + 5 with a 2-byte reserved gap
between incline and distance. -/
theorem C1_console_frame_decode (s : ConsoleSession) (data : List Nat) (idx : Nat)
    (hfind : findSub signature data = some idx)
    (hlen : idx + 13 ≤ data.length) :
    (notification_handler s data).speed =
      ((byteAt data (idx + 5) + 256 * byteAt data (idx + 6) : Nat) : ℚ) / 100 ∧
    (notification_handler s data).incline =
      ((byteAt data (idx + 7) + 256 * byteAt data (idx + 8) : Nat) : ℚ) / 100 ∧
    (notification_handler s data).distance =
      ((byteAt data (idx + 11) + 256 * byteAt data (idx + 12) : Nat) : ℚ) / 1000 := by
  have h1 := sliceLE_two_bytes data (idx + 5) (idx + 5 + 2) (idx + 5) (idx + 6)
    (by omega) rfl (by omega) (by omega)
  have h2 := sliceLE_two_bytes data (idx + 5 + 2) (idx + 5 + 4) (idx + 7) (idx + 8)
    (by omega) (by omega) (by omega) (by omega)
  have h3 := sliceLE_two_bytes data (idx + 5 + 6) (idx + 5 + 8) (idx + 11) (idx + 12)
    (by omega) (by omega) (by omega) (by omega)
  refine ⟨?_, ?_, ?_⟩ <;> simp [notification_handler, hfind, h1, h2, h3]

/-- Witness for C1 at the concrete golden frame (signature, one gap byte,
then the eight telemetry bytes). -/
theorem C1_console_frame_decode_witness :
    findSub signature dataGolden = some 0 ∧ 0 + 13 ≤ dataGolden.length ∧
    ((notification_handler initConsole dataGolden).speed =
        ((byteAt dataGolden (0 + 5) + 256 * byteAt dataGolden (0 + 6) : Nat) : ℚ) / 100 ∧
      (notification_handler initConsole dataGolden).incline =
        ((byteAt dataGolden (0 + 7) + 256 * byteAt dataGolden (0 + 8) : Nat) : ℚ) / 100 ∧
      (notification_handler initConsole dataGolden).distance =
        ((byteAt dataGolden (0 + 11) + 256 * byteAt dataGolden (0 + 12) : Nat) : ℚ) / 1000) :=
  ⟨by decide, by decide,
    C1_console_frame_decode initConsole dataGolden 0 (by decide) (by decide)⟩

/-! ## C2: truncated frames are NOT discarded (code bug) -/

/-- C2 demonstration at the failing input: a buffer that is exactly the
4-byte signature.  Python slicing past the end returns empty bytes and
`int.from_bytes(b'') = 0`, so the `except (IndexError, ValueError)` never
fires and all three fields are overwritten with 0.0 — the frame is NOT
discarded, contradicting the claim (and the code's own dead except
clause) that no field is mutated when a slice is out of range. -/
theorem C2_truncated_frame_overwrites :
    priorConsole.speed = 1 ∧ priorConsole.incline = 2 ∧ priorConsole.distance = 3 ∧
    (notification_handler priorConsole signature).speed = 0 ∧
    (notification_handler priorConsole signature).incline = 0 ∧
    (notification_handler priorConsole signature).distance = 0 ∧
    (notification_handler priorConsole signature).speed ≠ priorConsole.speed := by
  have hfind : findSub signature signature = some 0 := by decide
  have h1 : sliceLE signature (0 + 5) (0 + 5 + 2) = 0 := by decide
  have h2 : sliceLE signature (0 + 5 + 2) (0 + 5 + 4) = 0 := by decide
  have h3 : sliceLE signature (0 + 5 + 6) (0 + 5 + 8) = 0 := by decide
  refine ⟨rfl, rfl, rfl, ?_, ?_, ?_, ?_⟩ <;>
    simp [notification_handler, hfind, h1, h2, h3, priorConsole, initConsole]

/-! ## C3: golden decode example -/

/-- C3 counterexample: for the signature immediately followed by
`64 00 0A 00 00 00 E8 03` (no gap byte after the signature), the decoded
speed is 2560/100 = 25.6, not 1.00 as the claim states. -/
theorem C3_counterexample :
    (notification_handler initConsole dataNoPad).speed ≠ 1 := by
  have hfind : findSub signature dataNoPad = some 0 := by decide
  have h1 : sliceLE dataNoPad (0 + 5) (0 + 5 + 2) = 2560 := by decide
  simp only [notification_handler, hfind, h1]
  norm_num

/-- C3 amended: the telemetry block starts one byte after the signature
ends (the code skips the byte at idx+4).  For the signature followed by a
gap byte and then bytes b0..b7, decoded speed = (b1<<8|b0)/100, incline =
(b3<<8|b2)/100, distance = (b7<<8|b6)/1000; the golden frame
signature ++ 00 ++ 64 00 0A 00 00 00 E8 03 yields speed=1.00,
incline=0.10, distance=1.00. -/
theorem C3_padded_decode :
    (∀ (s : ConsoleSession) (pad b0 b1 b2 b3 b4 b5 b6 b7 : Nat) (rest : List Nat),
      (notification_handler s
          (signature ++ pad :: b0 :: b1 :: b2 :: b3 :: b4 :: b5 :: b6 :: b7 :: rest)).speed =
        ((b0 + 256 * b1 : Nat) : ℚ) / 100 ∧
      (notification_handler s
          (signature ++ pad :: b0 :: b1 :: b2 :: b3 :: b4 :: b5 :: b6 :: b7 :: rest)).incline =
        ((b2 + 256 * b3 : Nat) : ℚ) / 100 ∧
      (notification_handler s
          (signature ++ pad :: b0 :: b1 :: b2 :: b3 :: b4 :: b5 :: b6 :: b7 :: rest)).distance =
        ((b6 + 256 * b7 : Nat) : ℚ) / 1000) ∧
    ((notification_handler initConsole dataGolden).speed = 1 ∧
     (notification_handler initConsole dataGolden).incline = 1 / 10 ∧
     (notification_handler initConsole dataGolden).distance = 1) := by
  constructor
  · intro s pad b0 b1 b2 b3 b4 b5 b6 b7 rest
    have hs : (notification_handler s
        (signature ++ pad :: b0 :: b1 :: b2 :: b3 :: b4 :: b5 :: b6 :: b7 :: rest)).speed =
        ((b0 + 256 * (b1 + 256 * 0) : Nat) : ℚ) / 100 := rfl
    have hi : (notification_handler s
        (signature ++ pad :: b0 :: b1 :: b2 :: b3 :: b4 :: b5 :: b6 :: b7 :: rest)).incline =
        ((b2 + 256 * (b3 + 256 * 0) : Nat) : ℚ) / 100 := rfl
    have hd : (notification_handler s
        (signature ++ pad :: b0 :: b1 :: b2 :: b3 :: b4 :: b5 :: b6 :: b7 :: rest)).distance =
        ((b6 + 256 * (b7 + 256 * 0) : Nat) : ℚ) / 1000 := rfl
    refine ⟨?_, ?_, ?_⟩
    · rw [hs]; push_cast; ring
    · rw [hi]; push_cast; ring
    · rw [hd]; push_cast; ring
  · have hs : (notification_handler initConsole dataGolden).speed =
        ((100 : Nat) : ℚ) / 100 := rfl
    have hi : (notification_handler initConsole dataGolden).incline =
        ((10 : Nat) : ℚ) / 100 := rfl
    have hd : (notification_handler initConsole dataGolden).distance =
        ((1000 : Nat) : ℚ) / 1000 := rfl
    refine ⟨?_, ?_, ?_⟩
    · rw [hs]; norm_num
    · rw [hi]; norm_num
    · rw [hd]; norm_num

/-! ## C4: HR frame decode -/

/-- C4: for every non-empty buffer, bit 0 of the flags byte selects the
width: if 0, hr becomes the single byte at index 1; if 1, hr becomes the
2-byte little-endian integer at indices 1..2; the three golden examples
hold; empty buffers are ignored, and a decode error (flags bit 0 = 0 with
no byte at index 1, an IndexError in the code) leaves hr unchanged. -/
theorem C4_hr_decode (s : PolarState) (data : List Nat) :
    (data = [] → PolarDevice.hr_handler s data = s) ∧
    (∀ flags b rest, data = flags :: b :: rest → flags % 2 = 0 →
      (PolarDevice.hr_handler s data).hr = b) ∧
    (∀ flags b c rest, data = flags :: b :: c :: rest → flags % 2 = 1 →
      (PolarDevice.hr_handler s data).hr = b + 256 * c) ∧
    (∀ flags, data = [flags] → flags % 2 = 0 → PolarDevice.hr_handler s data = s) ∧
    (PolarDevice.hr_handler s [0x00, 60]).hr = 60 ∧
    (PolarDevice.hr_handler s [0x01, 60, 0]).hr = 60 ∧
    (PolarDevice.hr_handler s [0x01, 0x64, 0x00]).hr = 100 := by
  refine ⟨?_, ?_, ?_, ?_, rfl, rfl, rfl⟩
  · rintro rfl; rfl
  · rintro flags b rest rfl h
    simp [PolarDevice.hr_handler, h]
  · rintro flags b c rest rfl h
    simp [PolarDevice.hr_handler, h, take_two_cons, leVal_pair]
  · rintro flags rfl h
    simp [PolarDevice.hr_handler, h]

/-- Witness for C4: the 2-byte branch at the concrete buffer 01 3C 00. -/
theorem C4_hr_decode_witness :
    (PolarDevice.hr_handler initPolar (1 :: 60 :: 0 :: [])).hr = 60 + 256 * 0 :=
  (C4_hr_decode initPolar (1 :: 60 :: 0 :: [])).2.2.1 1 60 0 [] rfl rfl

/-! ## C5: console connect raises to its caller -/

/-- C5 counterexample: when the transport connect raises, the console
`connect()` propagates the exception to its caller (there is no
try/except around it), refuting "never raises". -/
theorem C5_counterexample :
    (IFitDevice.connect initConsole ConnectOutcome.raises).2 = true := rfl

/-- C5 amended: console `connect()` propagates any transport connect
exception to its caller, leaving the connected flag unchanged (so a
previously Disconnected session stays Disconnected); when the transport
connect returns normally, it does not raise and sets connectionState =
Connected iff the transport reports link-up. -/
theorem C5_connect_behavior (s : ConsoleSession) :
    (IFitDevice.connect s ConnectOutcome.raises).2 = true ∧
    (IFitDevice.connect s ConnectOutcome.raises).1.connected = s.connected ∧
    (∀ b, (IFitDevice.connect s (ConnectOutcome.ok b)).2 = false ∧
          (IFitDevice.connect s (ConnectOutcome.ok b)).1.connected = b) :=
  ⟨rfl, rfl, fun _ => ⟨rfl, rfl⟩⟩

/-! ## C6: cleanup on interrupt -/

/-- C6 counterexample: both sessions constructed, the console client is
connected, and its transport disconnect raises: then `ifit.close()`
raises out of the `finally` block and `polar.close()` is never invoked,
refuting "close() is invoked on every constructed session regardless of
prior error state". -/
theorem C6_counterexample :
    (main_cleanup (some connectedConsole) (some initPolar) false true).2 = false := rfl

/-- C6 amended: on interrupt, close() is invoked on the console session
whenever it was constructed; close() is invoked on the strap session iff
it was constructed and the console close did not raise (the console close
raises exactly when its client is connected and the transport disconnect
fails — in that case the strap session is never closed). -/
theorem C6_cleanup_scope (i : Option ConsoleSession) (p : Option PolarState)
    (sr dr : Bool) :
    (main_cleanup i p sr dr).1 = i.isSome ∧
    (main_cleanup i p sr dr).2 =
      (p.isSome && !(i.elim false (fun s => IFitDevice.close s sr dr))) := by
  cases i with
  | none => simp [main_cleanup]
  | some s =>
      by_cases h : IFitDevice.close s sr dr = true
      · simp [main_cleanup, h]
      · have hf : IFitDevice.close s sr dr = false := by simpa using h
        simp [main_cleanup, hf]

/-! ## Polar field-preservation lemmas -/

theorem reconcile_battery (s : PolarState) (l : Bool) :
    (PolarDevice.reconcile s l).battery = s.battery := by
  unfold PolarDevice.reconcile; split <;> rfl

theorem reconcile_last_battery_read (s : PolarState) (l : Bool) :
    (PolarDevice.reconcile s l).last_battery_read = s.last_battery_read := by
  unfold PolarDevice.reconcile; split <;> rfl

theorem reconcile_hr (s : PolarState) (l : Bool) :
    (PolarDevice.reconcile s l).hr = s.hr := by
  unfold PolarDevice.reconcile; split <;> rfl

theorem connect_battery (ha : Bool) (s : PolarState) (oc : ConnectOutcome)
    (now : Nat) : (PolarDevice.connect ha s oc now).battery = s.battery := by
  unfold PolarDevice.connect
  cases oc <;> (repeat' split) <;> rfl

theorem connect_last_battery_read (ha : Bool) (s : PolarState)
    (oc : ConnectOutcome) (now : Nat) :
    (PolarDevice.connect ha s oc now).last_battery_read = s.last_battery_read := by
  unfold PolarDevice.connect
  cases oc <;> (repeat' split) <;> rfl

theorem connect_hr (ha : Bool) (s : PolarState) (oc : ConnectOutcome)
    (now : Nat) : (PolarDevice.connect ha s oc now).hr = s.hr := by
  unfold PolarDevice.connect
  cases oc <;> (repeat' split) <;> rfl

theorem setup_battery (s : PolarState) (ok : Bool) :
    (PolarDevice.setup s ok).battery = s.battery := by
  unfold PolarDevice.setup
  split
  · split <;> rfl
  · rfl

theorem setup_last_battery_read (s : PolarState) (ok : Bool) :
    (PolarDevice.setup s ok).last_battery_read = s.last_battery_read := by
  unfold PolarDevice.setup
  split
  · split <;> rfl
  · rfl

theorem setup_hr (s : PolarState) (ok : Bool) :
    (PolarDevice.setup s ok).hr = s.hr := by
  unfold PolarDevice.setup
  split
  · split <;> rfl
  · rfl

/-- When a battery read is attempted and succeeds, `battery` and
`last_battery_read` are both updated. -/
theorem update_read_fields (ha : Bool) (s : PolarState) (t : TickInput) (v : Nat)
    (hatt : PolarDevice.battery_attempted s t = true)
    (hv : t.battery_outcome = some v) :
    (PolarDevice.update ha s t).battery = v ∧
    (PolarDevice.update ha s t).last_battery_read = t.now := by
  unfold PolarDevice.battery_attempted at hatt
  rw [Bool.and_eq_true, decide_eq_true_iff] at hatt
  simp [PolarDevice.update, hatt.1, hatt.2, hv]

/-- When no battery read is attempted, or the read raises, `battery` and
`last_battery_read` are both retained. -/
theorem update_no_read_fields (ha : Bool) (s : PolarState) (t : TickInput)
    (h : PolarDevice.battery_attempted s t = false ∨ t.battery_outcome = none) :
    (PolarDevice.update ha s t).battery = s.battery ∧
    (PolarDevice.update ha s t).last_battery_read = s.last_battery_read := by
  by_cases hc : (PolarDevice.reconcile s t.client_is_connected).connected = true
  · by_cases htm : s.last_battery_read + 60 < t.now
    · have hnone : t.battery_outcome = none := by
        rcases h with h | h
        · exfalso
          have htrue : PolarDevice.battery_attempted s t = true := by
            unfold PolarDevice.battery_attempted
            simp [hc, reconcile_last_battery_read, htm]
          rw [htrue] at h
          cases h
        · exact h
      simp [PolarDevice.update, hc, htm, hnone, reconcile_battery,
            reconcile_last_battery_read]
    · simp [PolarDevice.update, hc, htm, reconcile_battery,
            reconcile_last_battery_read]
  · have hcf : (PolarDevice.reconcile s t.client_is_connected).connected = false := by
      simpa using hc
    simp only [PolarDevice.update, hcf, Bool.false_eq_true, if_false]
    refine ⟨?_, ?_⟩ <;>
      · split <;>
          simp [setup_battery, setup_last_battery_read, connect_battery,
                connect_last_battery_read, reconcile_battery,
                reconcile_last_battery_read]

/-! ## C7: reconnect tick -/

/-- C7: when a Strap update() tick starts Disconnected (after reconcile)
and both the transport connect (link-up) and the subscription succeed,
the session is Connected at the end of that same tick, and no battery
read is attempted: battery, last_battery_read and hr are all unchanged. -/
theorem C7_reconnect_tick (ha : Bool) (s : PolarState) (t : TickInput)
    (hdis : (PolarDevice.reconcile s t.client_is_connected).connected = false)
    (hha : ha = true)
    (hconn : t.connect_outcome = ConnectOutcome.ok true)
    (hsetup : t.setup_ok = true) :
    (PolarDevice.update ha s t).connected = true ∧
    (PolarDevice.update ha s t).battery = s.battery ∧
    (PolarDevice.update ha s t).last_battery_read = s.last_battery_read ∧
    (PolarDevice.update ha s t).hr = s.hr ∧
    PolarDevice.battery_attempted s t = false := by
  subst hha
  have hupd : PolarDevice.update true s t =
      PolarDevice.setup
        (PolarDevice.connect true (PolarDevice.reconcile s t.client_is_connected)
          t.connect_outcome t.now) t.setup_ok := by
    have hcon : (PolarDevice.connect true
        (PolarDevice.reconcile s t.client_is_connected)
        t.connect_outcome t.now).connected = true := by
      rw [hconn]; rfl
    simp [PolarDevice.update, hdis, hcon]
  have hcs : (PolarDevice.setup
      (PolarDevice.connect true (PolarDevice.reconcile s t.client_is_connected)
        t.connect_outcome t.now) t.setup_ok).connected = true := by
    rw [hconn, hsetup]; rfl
  refine ⟨?_, ?_, ?_, ?_, ?_⟩
  · rw [hupd]; exact hcs
  · rw [hupd, setup_battery, connect_battery, reconcile_battery]
  · rw [hupd, setup_last_battery_read, connect_last_battery_read,
        reconcile_last_battery_read]
  · rw [hupd, setup_hr, connect_hr, reconcile_hr]
  · unfold PolarDevice.battery_attempted
    simp [hdis]

/-- Witness for C7: a fresh strap session with a reconnect-success tick. -/
theorem C7_reconnect_tick_witness :
    (PolarDevice.update true initPolar tickReconnect).connected = true ∧
    (PolarDevice.update true initPolar tickReconnect).battery = initPolar.battery ∧
    (PolarDevice.update true initPolar tickReconnect).last_battery_read =
      initPolar.last_battery_read ∧
    (PolarDevice.update true initPolar tickReconnect).hr = initPolar.hr ∧
    PolarDevice.battery_attempted initPolar tickReconnect = false :=
  C7_reconnect_tick true initPolar tickReconnect (by decide) rfl rfl rfl

/-! ## C8: battery read throttling -/

theorem chain_sixty_lt_of_mem :
    ∀ (l : List Nat) (a y : Nat),
      List.Chain (fun x z => x + 60 < z) a l → y ∈ l → a + 60 < y := by
  intro l
  induction l with
  | nil => intro a y _ hy; cases hy
  | cons b bs ih =>
      intro a y h hy
      cases h with
      | cons hab hbs =>
          cases hy with
          | head => exact hab
          | tail _ hy2 =>
              have := ih b y hbs hy2
              omega

theorem chain_sixty_pairwise :
    ∀ (l : List Nat) (a : Nat),
      List.Chain (fun x z => x + 60 < z) a l →
      List.Pairwise (fun x z => x + 60 < z) l := by
  intro l
  induction l with
  | nil => intro a _; exact List.Pairwise.nil
  | cons b bs ih =>
      intro a h
      cases h with
      | cons hab hbs =>
          exact List.Pairwise.cons
            (fun y hy => chain_sixty_lt_of_mem bs b y hbs hy) (ih b hbs)

/-- Along any tick sequence, the successful battery read times form a
chain: each is more than 60 time units after `last_battery_read` as it
stood when the read happened. -/
theorem read_times_chain (ha : Bool) :
    ∀ (ts : List TickInput) (s : PolarState),
      List.Chain (fun x z => x + 60 < z) s.last_battery_read
        (PolarDevice.read_times ha s ts) := by
  intro ts
  induction ts with
  | nil => intro s; exact List.Chain.nil
  | cons t ts ih =>
      intro s
      unfold PolarDevice.read_times
      by_cases hatt : PolarDevice.battery_attempted s t = true
      · cases hoc : t.battery_outcome with
        | some v =>
            simp only [hatt, hoc, Option.isSome_some, Bool.and_self, if_true,
              List.singleton_append]
            refine List.Chain.cons ?_ ?_
            · have h2 := hatt
              unfold PolarDevice.battery_attempted at h2
              rw [Bool.and_eq_true, decide_eq_true_iff] at h2
              have := h2.2
              rwa [reconcile_last_battery_read] at this
            · have hlast : (PolarDevice.update ha s t).last_battery_read = t.now :=
                (update_read_fields ha s t v hatt hoc).2
              have hch := ih (PolarDevice.update ha s t)
              rwa [hlast] at hch
        | none =>
            simp only [hatt, hoc, Option.isSome_none, Bool.and_false,
              Bool.false_eq_true, if_false, List.nil_append]
            have hlast : (PolarDevice.update ha s t).last_battery_read =
                s.last_battery_read :=
              (update_no_read_fields ha s t (Or.inr hoc)).2
            have hch := ih (PolarDevice.update ha s t)
            rwa [hlast] at hch
      · have hf : PolarDevice.battery_attempted s t = false := by simpa using hatt
        simp only [hf, Bool.false_and, Bool.false_eq_true, if_false,
          List.nil_append]
        have hlast : (PolarDevice.update ha s t).last_battery_read =
            s.last_battery_read :=
          (update_no_read_fields ha s t (Or.inl hf)).2
        have hch := ih (PolarDevice.update ha s t)
        rwa [hlast] at hch

/-- C8: a battery read is attempted only when at least 60 time units have
elapsed since last_battery_read (the code requires strictly more than 60);
a successful read updates both battery and last_battery_read, a failed
read retains both; and along any tick sequence any two successful read
times are more than 60 time units apart, so reads happen at most once per
60-time-unit window. -/
theorem C8_battery_throttle (ha : Bool) (s : PolarState) (t : TickInput)
    (ts : List TickInput) :
    (PolarDevice.battery_attempted s t = true →
      s.last_battery_read + 60 ≤ t.now) ∧
    (PolarDevice.battery_attempted s t = true →
      ∀ v, t.battery_outcome = some v →
        (PolarDevice.update ha s t).battery = v ∧
        (PolarDevice.update ha s t).last_battery_read = t.now) ∧
    (t.battery_outcome = none →
      (PolarDevice.update ha s t).battery = s.battery ∧
      (PolarDevice.update ha s t).last_battery_read = s.last_battery_read) ∧
    List.Pairwise (fun x z => x + 60 < z) (PolarDevice.read_times ha s ts) := by
  refine ⟨?_, ?_, ?_, ?_⟩
  · intro h
    unfold PolarDevice.battery_attempted at h
    rw [Bool.and_eq_true, decide_eq_true_iff] at h
    have h2 := h.2
    rw [reconcile_last_battery_read] at h2
    omega
  · intro h v hv
    exact update_read_fields ha s t v h hv
  · intro hnone
    exact update_no_read_fields ha s t (Or.inr hnone)
  · exact chain_sixty_pairwise _ _ (read_times_chain ha ts s)

/-- Witness for C8: a connected session at time 100 with last read at 0
attempts and succeeds a read of 77. -/
theorem C8_battery_throttle_witness :
    PolarDevice.battery_attempted connectedPolar tickRead = true ∧
    connectedPolar.last_battery_read + 60 ≤ tickRead.now ∧
    (PolarDevice.update true connectedPolar tickRead).battery = 77 ∧
    (PolarDevice.update true connectedPolar tickRead).last_battery_read =
      tickRead.now := by
  have h := C8_battery_throttle true connectedPolar tickRead []
  exact ⟨by decide, h.1 (by decide), (h.2.1 (by decide) 77 rfl).1,
    (h.2.1 (by decide) 77 rfl).2⟩

/-! ## C9: strap close -/

/-- C9 counterexample: for a connected strap session whose `stop_notify`
raises, `close()` never attempts the `disconnect` — both calls sit in one
try block, so an unsubscribe failure DOES prevent the disconnect,
refuting the claim. -/
theorem C9_counterexample :
    (PolarDevice.close connectedPolar true false).disconnect_attempted = false := rfl

/-- C9 amended: when the session has a client and is connected, close()
unsubscribes and then disconnects inside a single exception scope: errors
from either are swallowed (close never raises to its caller), but a
failure of the unsubscribe aborts the sequence, so the disconnect is not
attempted. -/
theorem C9_close_behavior (s : PolarState) (sr dr : Bool) :
    (PolarDevice.close s sr dr).raised = false ∧
    ((s.hasClient && s.connected) = true →
      (PolarDevice.close s sr dr).stop_notify_attempted = true) ∧
    ((s.hasClient && s.connected) = true → sr = false →
      (PolarDevice.close s sr dr).disconnect_attempted = true) ∧
    ((s.hasClient && s.connected) = true → sr = true →
      (PolarDevice.close s sr dr).disconnect_attempted = false) ∧
    ((s.hasClient && s.connected) = false →
      (PolarDevice.close s sr dr).stop_notify_attempted = false ∧
      (PolarDevice.close s sr dr).disconnect_attempted = false) := by
  by_cases hg : (s.hasClient && s.connected) = true <;> cases sr <;>
    simp [PolarDevice.close, hg]

/-- Witness for C9: connected session, unsubscribe succeeds, disconnect
raises — both calls attempted, nothing raised to the caller. -/
theorem C9_close_behavior_witness :
    (PolarDevice.close connectedPolar false true).raised = false ∧
    (PolarDevice.close connectedPolar false true).stop_notify_attempted = true ∧
    (PolarDevice.close connectedPolar false true).disconnect_attempted = true := by
  have h := C9_close_behavior connectedPolar false true
  exact ⟨h.1, h.2.1 (by decide), h.2.2.1 (by decide) rfl⟩

/-! ## C10: telemetry value bounds -/

theorem leVal_le_of_bytes (l : List Nat) (h : ∀ b ∈ l, b < 256)
    (hlen : l.length ≤ 2) : leVal l ≤ 65535 := by
  cases l with
  | nil => simp [leVal]
  | cons a l2 =>
      cases l2 with
      | nil =>
          have h1 := h a (by simp)
          simp only [leVal]
          omega
      | cons b l3 =>
          cases l3 with
          | nil =>
              have h1 := h a (by simp)
              have h2 := h b (by simp)
              simp only [leVal]
              omega
          | cons c l4 =>
              exfalso
              simp only [List.length_cons] at hlen
              omega

theorem sliceLE_le (data : List Nat) (a b : Nat) (hb : b ≤ a + 2)
    (h : ∀ x ∈ data, x < 256) : sliceLE data a b ≤ 65535 := by
  unfold sliceLE
  apply leVal_le_of_bytes
  · intro x hx
    exact h x (List.mem_of_mem_drop (List.mem_of_mem_take hx))
  · unfold pySlice
    have := List.length_take (b - a) (data.drop a)
    omega

/-- One handler invocation preserves the telemetry bounds. -/
theorem handler_bounded (s : ConsoleSession) (data : List Nat)
    (hd : ∀ x ∈ data, x < 256) (hs : telemetry_bounded s) :
    telemetry_bounded (notification_handler s data) := by
  cases hf : findSub signature data with
  | none =>
      have heq : notification_handler s data = s := by
        simp [notification_handler, hf]
      rw [heq]; exact hs
  | some idx =>
      have heq : notification_handler s data =
          { s with
              speed := (sliceLE data (idx + 5) (idx + 5 + 2) : ℚ) / 100
              incline := (sliceLE data (idx + 5 + 2) (idx + 5 + 4) : ℚ) / 100
              distance := (sliceLE data (idx + 5 + 6) (idx + 5 + 8) : ℚ) / 1000 } := by
        simp [notification_handler, hf]
      have h1 := sliceLE_le data (idx + 5) (idx + 5 + 2) (by omega) hd
      have h2 := sliceLE_le data (idx + 5 + 2) (idx + 5 + 4) (by omega) hd
      have h3 := sliceLE_le data (idx + 5 + 6) (idx + 5 + 8) (by omega) hd
      rw [heq]
      unfold telemetry_bounded
      refine ⟨⟨by positivity, ?_⟩, ⟨by positivity, ?_⟩, ⟨by positivity, ?_⟩⟩
      · exact (div_le_div_iff_of_pos_right (by norm_num)).mpr (by exact_mod_cast h1)
      · exact (div_le_div_iff_of_pos_right (by norm_num)).mpr (by exact_mod_cast h2)
      · exact (div_le_div_iff_of_pos_right (by norm_num)).mpr (by exact_mod_cast h3)

theorem run_frames_bounded (frames : List (List Nat)) :
    ∀ s : ConsoleSession, telemetry_bounded s →
      (∀ f ∈ frames, ∀ x ∈ f, x < 256) →
      telemetry_bounded (run_frames s frames) := by
  induction frames with
  | nil => intro s hs _; exact hs
  | cons d ds ih =>
      intro s hs hb
      unfold run_frames
      exact ih (notification_handler s d)
        (handler_bounded s d (hb d (by simp)) hs)
        (fun f hf x hx => hb f (by simp [hf]) x hx)

/-- C10: starting from the zero-telemetry initial state, after any sequence
of delivered notification buffers (of bytes), speed and incline lie in
[0, 655.35] and distance lies in [0, 65.535] — each field is only ever
overwritten with an unsigned at-most-2-byte integer divided by 100
(1000 for distance). -/
theorem C10_telemetry_bounds (frames : List (List Nat))
    (hb : ∀ f ∈ frames, ∀ x ∈ f, x < 256) :
    (0 ≤ (run_frames initConsole frames).speed ∧
      (run_frames initConsole frames).speed ≤ 65535 / 100) ∧
    (0 ≤ (run_frames initConsole frames).incline ∧
      (run_frames initConsole frames).incline ≤ 65535 / 100) ∧
    (0 ≤ (run_frames initConsole frames).distance ∧
      (run_frames initConsole frames).distance ≤ 65535 / 1000) :=
  run_frames_bounded frames initConsole
    (by unfold telemetry_bounded initConsole; norm_num) hb

/-- Witness for C10: the bound evaluated after one concrete golden frame. -/
theorem C10_telemetry_bounds_witness :
    (∀ f ∈ [dataGolden], ∀ x ∈ f, x < 256) ∧
    ((0 ≤ (run_frames initConsole [dataGolden]).speed ∧
       (run_frames initConsole [dataGolden]).speed ≤ 65535 / 100) ∧
     (0 ≤ (run_frames initConsole [dataGolden]).incline ∧
       (run_frames initConsole [dataGolden]).incline ≤ 65535 / 100) ∧
     (0 ≤ (run_frames initConsole [dataGolden]).distance ∧
       (run_frames initConsole [dataGolden]).distance ≤ 65535 / 1000)) :=
  ⟨by decide, C10_telemetry_bounds [dataGolden] (by decide)⟩
